import Mathlib

/-!
# Shallow embedding of the SiS USB-VGA bridge emulator core

This file models the register/VRAM bridge engine of the `usb-gadget-tests`
repository.  The core exists in two variants:

* `InitGfx` — the full graphics-initialization variant
  (`src/unnamed/part_001`, lines 525 onward): its `vram_bulk_write` truncates
  an overflowing bulk chunk to `VRAM_SIZE - base_addr` in 32-bit arithmetic.
* `Mouse` — the SVACE-defect-reproduction variant (`src/src/mouse/mouse.c`):
  its `vram_bulk_write` truncates an overflowing bulk chunk to length 0, and
  its `process_packet_bridge` raises an `overflow` observation flag when the
  bulk target hits the sentinel address/length pair.

Machine integers are modelled as `ℕ` with explicit `% 2^32` (resp. `% 2^16`,
`% 256`) truncation at the points where the C code's fixed-width types
truncate.  The fixed-capacity C arrays are modelled as total functions
`ℕ → ℕ`; the bounds checks of the source decide which indices are ever
touched.  Warnings printed by the source are modelled as `Bool` outputs.
-/

/-- 2^32, the modulus of the C `uint32_t` arithmetic. -/
def U32 : ℕ := 2 ^ 32

/-- 2^16, the modulus of the C `uint16_t` (packet header) arithmetic. -/
def U16 : ℕ := 2 ^ 16

/-- 32-bit truncation. -/
def u32 (x : ℕ) : ℕ := x % U32

/-- 32-bit wrapping subtraction `a - b` as computed on `uint32_t`. -/
def u32sub (a b : ℕ) : ℕ := (a % U32 + (U32 - b % U32)) % U32

def SISUSB_TYPE_MEM : ℕ := 0
def SISUSB_TYPE_IO : ℕ := 1

def SISUSB_PCI_IOPORTBASE : ℕ := 0x0000d000
def SISUSB_PCI_MEMBASE : ℕ := 0xd0000000

def PCI_CONFIG_SIZE : ℕ := 128
def PCI_BRIDGE_REG_SIZE : ℕ := 1024
def GFX_REG_SIZE : ℕ := 128

/-- `#define VRAM_SIZE 8 * (1024 * 1024)` (both variants back VRAM with 8 MiB). -/
def VRAM_SIZE : ℕ := 8 * (1024 * 1024)

-- SISSR 0x14 bits 2-3 (RAM Topology)
def SISUSB_RAM_1CH_1R : ℕ := 0x00
def SISUSB_RAM_1CH_2R : ℕ := 0x01
def SISUSB_RAM_ASYM : ℕ := 0x02
def SISUSB_RAM_2CH : ℕ := 0x03

/-- The 10-byte wire packet `{header:u16, address:u32, data:u32}`.
Fields are natural numbers; each model operation truncates them to the wire
width exactly as `__le16_to_cpu`/`__le32_to_cpu` yield fixed-width values. -/
structure Packet where
  header : ℕ
  address : ℕ
  data : ℕ

/-- The mutable globals of one emulator process: the four address-space
stores, the one-shot query flags (function-local statics in the source),
the bulk reassembly state `bulk_state`, the `overflow` observation flag
(present in the `Mouse` variant only), and the screen-corner beacon. -/
structure SisState where
  pci_config : ℕ → ℕ
  bridge_reg : ℕ → ℕ
  gfx_reg : ℕ → ℕ
  vram : ℕ → ℕ
  ramtype_req : Bool
  vramsize_req : Bool
  bulk_address : ℕ
  bulk_length : ℕ
  bulk_flags : ℕ
  bulk_configured : Bool
  overflow : Bool
  corner_hits : ℕ
  main_running : Bool

/-- All stores zero-filled, all flags clear: the process-start state. -/
def initState : SisState where
  pci_config := fun _ => 0
  bridge_reg := fun _ => 0
  gfx_reg := fun _ => 0
  vram := fun _ => 0
  ramtype_req := false
  vramsize_req := false
  bulk_address := 0
  bulk_length := 0
  bulk_flags := 0
  bulk_configured := false
  overflow := false
  corner_hits := 0
  main_running := true

/-- `memcpy(&vram[base], data, len)`: byte `j` of the source buffer lands at
index `base + j`; bytes past the end of the buffer are modelled as 0. -/
def memcpy_vram (vram : ℕ → ℕ) (base : ℕ) (data : List ℕ) (len : ℕ) : ℕ → ℕ :=
  fun a => if base ≤ a ∧ a < base + len then data.getD (a - base) 0 else vram a

/-- The `while (mb > 1) { mb >>= 1; power++ }` halving loop of
`get_vram_config_reg`, counting how often `mb` can be halved before it
drops to 1 or 0.  The first argument is a structural fuel bound; since `mb`
halves every iteration, `mb` itself is enough fuel. -/
def log2_loop : ℕ → ℕ → ℕ
  | 0, _ => 0
  | fuel + 1, mb => if mb > 1 then log2_loop fuel (mb / 2) + 1 else 0

/-- `get_vram_config_reg(size_bytes, mode)` (identical in both variants):
derives the advertised-size/topology byte. -/
def get_vram_config_reg (size_bytes mode : ℕ) : ℕ :=
  let mb := size_bytes % U32 / (1024 * 1024)
  if mb = 0 then 0
  else
    let mb2 :=
      if mode = SISUSB_RAM_ASYM then (mb * 2) / 3
      else if mode = SISUSB_RAM_1CH_2R ∨ mode = SISUSB_RAM_2CH then mb / 2
      else mb
    -- Bit 7-4: base size, Bit 3-2: mode, Bit 1-0: bus index (uint8 return)
    ((log2_loop mb2 mb2 <<< 4) ||| ((mode % 256) <<< 2)) % 256

/-- Result record of `process_packet_bridge`: the new state, the returned
word, and whether each of the two diagnostic `printf`s fired. -/
structure BridgeOut where
  s : SisState
  result : ℕ
  warn_header : Bool
  warn_oob : Bool

/-- The adjusted I/O-register address: `address & ~SISUSB_PCI_IOPORTBASE`
(32-bit complement) plus the byte-lane offset decoded from the low 4 header
bits (8 → 3, 4 → 2, 2 → 1, else 0). -/
def io_offset (header : ℕ) : ℕ :=
  let low_bits := header &&& 0x0F
  if low_bits = 8 then 3 else if low_bits = 4 then 2 else if low_bits = 2 then 1 else 0

def io_adj (header address : ℕ) : ℕ :=
  (address &&& ((U32 - 1) ^^^ SISUSB_PCI_IOPORTBASE)) + io_offset header

/-- `(address & 3) << 3`: the bit shift that moves the addressed byte lane
to/from bits 7..0 of a data word. -/
def io_shift (adj : ℕ) : ℕ := (adj &&& 3) <<< 3

/-- The packet classifies in `process_packet_gfx` as an I/O-register access
whose adjusted register address is `A`. -/
def is_io_access (pkt : Packet) (A : ℕ) : Prop :=
  ((pkt.header % U16) >>> 6) &&& 0x03 = SISUSB_TYPE_IO ∧
  io_adj (pkt.header % U16) (pkt.address % U32) = A

/-- The byte of the packet's data word selected by the byte lane of the
adjusted address `A` (the value the I/O path stores and compares). -/
def io_databyte (pkt : Packet) (A : ℕ) : ℕ :=
  ((pkt.data % U32) >>> io_shift A) &&& 0xFF

/-- The access re-arms a one-shot query: it targets adjusted address 0x44
and carries trigger byte 0x3A or 0x14. -/
def io_rearm (pkt : Packet) (A : ℕ) : Prop :=
  A = 0x44 ∧ (io_databyte pkt A = 0x3a ∨ io_databyte pkt A = 0x14)

instance (pkt : Packet) (A : ℕ) : Decidable (is_io_access pkt A) := by
  unfold is_io_access; infer_instance

instance (pkt : Packet) (A : ℕ) : Decidable (io_rearm pkt A) := by
  unfold io_rearm; infer_instance

namespace InitGfx

/-- `RAM_TYPE = RAM_TYPE_DDR` in the full-initialization variant. -/
def RAM_TYPE : ℕ := 0x3

/-- `SISUSB_RAM_CONFIG = SISUSB_RAM_ASYM` in the full-initialization variant. -/
def SISUSB_RAM_CONFIG : ℕ := SISUSB_RAM_ASYM

/-- The post-truncation length of `vram_bulk_write` in the
full-initialization variant: on overflow the applied length is
`VRAM_SIZE - base_addr` computed on `uint32_t`. -/
def bulk_applied_len (address length : ℕ) : ℕ :=
  let base_addr := u32sub address SISUSB_PCI_MEMBASE
  if (base_addr + length % U32) % U32 > VRAM_SIZE then
    u32sub VRAM_SIZE base_addr
  else length % U32

/-- `vram_bulk_write` of `src/unnamed/part_001`: subtract the memory base on
`uint32_t`, truncate an overflowing length to `VRAM_SIZE - base_addr`
(also on `uint32_t`), then `memcpy` if the resulting length is positive.
The `Bool` output records whether the truncation warning printed. -/
def vram_bulk_write (vram : ℕ → ℕ) (address : ℕ) (data : List ℕ) (length : ℕ) :
    (ℕ → ℕ) × Bool :=
  let base_addr := u32sub address SISUSB_PCI_MEMBASE
  let len := bulk_applied_len address length
  (if len > 0 then memcpy_vram vram base_addr data len else vram,
   decide ((base_addr + length % U32) % U32 > VRAM_SIZE))

/-- `process_packet_bridge` of `src/unnamed/part_001`: word-indexed access to
the 1024-word bridge-register bank, with the explicit out-of-bounds
rejection, and interception of the three bulk-configuration offsets of each
of the small (0x194/0x190/0x180) and large (0x1d4/0x1d0/0x1c0) paths. -/
def process_packet_bridge (s : SisState) (pkt : Packet) (is_read : Bool) : BridgeOut :=
  let header := pkt.header % U16
  let address := pkt.address % U32
  let data := pkt.data % U32
  let reg_offset := address / 4
  let wh : Bool := decide (header ≠ 0x001f ∧ header ≠ 0x000f)
  if reg_offset ≥ PCI_BRIDGE_REG_SIZE then
    { s := s, result := 0, warn_header := wh, warn_oob := true }
  else if is_read then
    { s := s, result := s.bridge_reg reg_offset, warn_header := wh, warn_oob := false }
  else
    let s1 := { s with bridge_reg := Function.update s.bridge_reg reg_offset data }
    let s2 :=
      if address = 0x194 ∨ address = 0x1d4 then { s1 with bulk_address := data }
      else if address = 0x190 ∨ address = 0x1d0 then { s1 with bulk_length := data }
      else if address = 0x180 ∨ address = 0x1c0 then
        { s1 with bulk_flags := data, bulk_configured := true }
      else s1
    { s := s2, result := 0, warn_header := wh, warn_oob := false }

/-- `process_packet_gfx` of `src/unnamed/part_001`: PCI-config space for
header 0x008f; otherwise the 2-bit type field of the header selects the
I/O-register path (lane-adjusted address, byte-granular store, one-shot
RAM-type/VRAM-size query interception, lane shift of the result) or the
VRAM path (per-lane byte access, lenient-mode address wrap by
`VRAM_SIZE - 1`, screen-corner completion beacon). -/
def process_packet_gfx (strict_bounds_check : Bool) (s : SisState) (pkt : Packet)
    (is_read : Bool) : SisState × ℕ :=
  let header := pkt.header % U16
  let address := pkt.address % U32
  let data := pkt.data % U32
  if header = 0x008f then
    let address := address &&& (PCI_CONFIG_SIZE - 1)
    if is_read then (s, s.pci_config address)
    else ({ s with pci_config := Function.update s.pci_config address data }, 0)
  else
    let ty := (header >>> 6) &&& 0x03
    if ty = SISUSB_TYPE_IO then
      let address := io_adj header address
      let data := (data >>> io_shift address) &&& 0xFF
      if address < GFX_REG_SIZE then
        let s1 :=
          if is_read then s
          else { s with gfx_reg := Function.update s.gfx_reg address data }
        let result0 := if is_read then s1.gfx_reg address else 0
        -- if (ramtype_req) { result = RAM_TYPE; ramtype_req = false; }
        let result1 := if s1.ramtype_req then RAM_TYPE else result0
        -- if (vramsize_req) { result = get_vram_config_reg(...); vramsize_req = false; }
        let result2 :=
          if s1.vramsize_req then get_vram_config_reg VRAM_SIZE SISUSB_RAM_CONFIG
          else result1
        let s2 := { s1 with ramtype_req := false, vramsize_req := false }
        let s3 :=
          if address = 0x44 then
            if data = 0x3a then { s2 with ramtype_req := true }
            else if data = 0x14 then { s2 with vramsize_req := true }
            else s2
          else s2
        (s3, (result2 <<< io_shift address) % U32)
      else (s, 0)
    else if ty = SISUSB_TYPE_MEM then
      let be_mask := header &&& 0x0F
      let base_addr := u32sub address SISUSB_PCI_MEMBASE
      let vram_mask := VRAM_SIZE - 1
      if is_read then
        let step := fun (result : ℕ) (i : ℕ) =>
          if be_mask.testBit i then
            let curr0 := (base_addr + i) % U32
            let curr_addr := if !strict_bounds_check then curr0 &&& vram_mask else curr0
            if curr_addr < VRAM_SIZE then
              -- result |= (uint32_t)vram[curr_addr] << (i * 8)  (uint8_t cell)
              result ||| ((s.vram curr_addr % 256) <<< (i * 8))
            else result
          else result
        (s, [0, 1, 2, 3].foldl step 0)
      else
        let wstep := fun (v : ℕ → ℕ) (i : ℕ) =>
          if be_mask.testBit i then
            let curr0 := (base_addr + i) % U32
            let curr_addr := if !strict_bounds_check then curr0 &&& vram_mask else curr0
            if curr_addr < VRAM_SIZE then
              -- vram[curr_addr] = (uint8_t)(data >> (i * 8))
              Function.update v curr_addr ((data >>> (i * 8)) &&& 0xFF)
            else v
          else v
        let s1 := { s with vram := [0, 1, 2, 3].foldl wstep s.vram }
        let s2 :=
          if address = 0xd0095ffc ∧ data = 0xf1000000 then
            let sc := { s1 with corner_hits := s1.corner_hits + 1 }
            if sc.corner_hits = 2 then { sc with main_running := false } else sc
          else s1
        (s2, 0)
    else (s, 0)

/-- One iteration of `ep_bulk_loop` (identically `ep_lbulk_loop`) after a
chunk of `rv = chunk.length` bytes arrived: apply `vram_bulk_write` at the
current cursor, advance the cursor and decrement the remaining length by
the requested amount (`uint32_t` arithmetic), then reset to idle if the
transfer was configured and the remaining length reached zero. -/
def bulk_chunk_step (s : SisState) (chunk : List ℕ) : SisState :=
  let rv := chunk.length
  let s1 := { s with vram := (vram_bulk_write s.vram s.bulk_address chunk rv).1 }
  let s2 := { s1 with
    bulk_address := (s1.bulk_address + rv) % U32
    bulk_length := u32sub s1.bulk_length rv }
  if s2.bulk_configured ∧ s2.bulk_length = 0 then
    { s2 with bulk_configured := false, bulk_address := 0, bulk_flags := 0 }
  else s2

/-- Consecutive chunks arriving on the bulk endpoint. -/
def stream_chunks (s : SisState) (chunks : List (List ℕ)) : SisState :=
  chunks.foldl bulk_chunk_step s

end InitGfx

namespace Mouse

/-- `RAM_TYPE = RAM_TYPE_SDR` in the SVACE-defect variant. -/
def RAM_TYPE : ℕ := 0x1

/-- `SISUSB_RAM_CONFIG = SISUSB_RAM_1CH_1R` in the SVACE-defect variant. -/
def SISUSB_RAM_CONFIG : ℕ := SISUSB_RAM_1CH_1R

/-- `#define VRAM_SIZE_BAD (1 * (1024 * 1024 * 1024))`: the misreported size. -/
def VRAM_SIZE_BAD : ℕ := 1 * (1024 * 1024 * 1024)

/-- `vram_bulk_write` of `src/src/mouse/mouse.c`: subtract the memory base on
`uint32_t`; if the (`uint32_t`) sum `base_addr + length` exceeds `VRAM_SIZE`,
truncate the applied length to 0 (whole chunk rejected) with a diagnostic;
then `memcpy` if the resulting length is positive.  The `Bool` output
records whether the truncation diagnostic printed. -/
def vram_bulk_write (vram : ℕ → ℕ) (address : ℕ) (data : List ℕ) (length : ℕ) :
    (ℕ → ℕ) × Bool :=
  let base_addr := u32sub address SISUSB_PCI_MEMBASE
  let warn : Bool := decide ((base_addr + length % U32) % U32 > VRAM_SIZE)
  let len := if warn then 0 else length % U32
  (if len > 0 then memcpy_vram vram base_addr data len else vram, warn)

/-- `process_packet_bridge` of `src/src/mouse/mouse.c`: identical to the
full-initialization variant, except that after any accepted write it raises
the `overflow` observation flag when the bulk state holds the sentinel pair
`bulk_state.address == 0xfffffff0 && bulk_state.length > 0x10`. -/
def process_packet_bridge (s : SisState) (pkt : Packet) (is_read : Bool) : BridgeOut :=
  let header := pkt.header % U16
  let address := pkt.address % U32
  let data := pkt.data % U32
  let reg_offset := address / 4
  let wh : Bool := decide (header ≠ 0x001f ∧ header ≠ 0x000f)
  if reg_offset ≥ PCI_BRIDGE_REG_SIZE then
    { s := s, result := 0, warn_header := wh, warn_oob := true }
  else if is_read then
    { s := s, result := s.bridge_reg reg_offset, warn_header := wh, warn_oob := false }
  else
    let s1 := { s with bridge_reg := Function.update s.bridge_reg reg_offset data }
    let s2 :=
      if address = 0x194 ∨ address = 0x1d4 then { s1 with bulk_address := data }
      else if address = 0x190 ∨ address = 0x1d0 then { s1 with bulk_length := data }
      else if address = 0x180 ∨ address = 0x1c0 then
        { s1 with bulk_flags := data, bulk_configured := true }
      else s1
    let s3 :=
      if s2.bulk_address = 0xfffffff0 ∧ s2.bulk_length > 0x10 then
        { s2 with overflow := true }
      else s2
    { s := s3, result := 0, warn_header := wh, warn_oob := false }

/-- One iteration of `ep_bulk_loop` of `src/src/mouse/mouse.c` after a chunk
arrived (the loop body is identical to the full-initialization variant but
calls this variant's `vram_bulk_write`). -/
def bulk_chunk_step (s : SisState) (chunk : List ℕ) : SisState :=
  let rv := chunk.length
  let s1 := { s with vram := (vram_bulk_write s.vram s.bulk_address chunk rv).1 }
  let s2 := { s1 with
    bulk_address := (s1.bulk_address + rv) % U32
    bulk_length := u32sub s1.bulk_length rv }
  if s2.bulk_configured ∧ s2.bulk_length = 0 then
    { s2 with bulk_configured := false, bulk_address := 0, bulk_flags := 0 }
  else s2

end Mouse

/-! ## Shared arithmetic and store lemmas -/

theorem or_shift_eq_add (a b n : ℕ) (ha : a < 2 ^ n) : a ||| (b <<< n) = a + b * 2 ^ n := by
  apply Nat.eq_of_testBit_eq
  intro j
  rw [Nat.testBit_or, Nat.testBit_shiftLeft,
    show a + b * 2 ^ n = 2 ^ n * b + a by ring, Nat.testBit_mul_pow_two_add b ha]
  rcases lt_or_ge j n with hj | hj
  · simp [hj, Nat.not_le.mpr hj]
  · have hfa : a.testBit j = false :=
      Nat.testBit_lt_two_pow (lt_of_lt_of_le ha (Nat.pow_le_pow_right (by norm_num) hj))
    simp [hfa, hj, Nat.not_lt.mpr hj]

/-- Extracting byte `k` from a little-endian 4-byte word assembled with `|||`. -/
theorem byte_extract (x0 x1 x2 x3 : ℕ)
    (h0 : x0 < 256) (h1 : x1 < 256) (h2 : x2 < 256) (h3 : x3 < 256) :
    ∀ k < 4, ((x0 ||| x1 <<< 8 ||| x2 <<< 16 ||| x3 <<< 24) >>> (k * 8)) &&& 255 =
      [x0, x1, x2, x3].getD k 0 := by
  have e1 : x0 ||| x1 <<< 8 = x0 + x1 * 2 ^ 8 := or_shift_eq_add _ _ _ (by omega)
  have e2 : x0 + x1 * 2 ^ 8 ||| x2 <<< 16 = x0 + x1 * 2 ^ 8 + x2 * 2 ^ 16 :=
    or_shift_eq_add _ _ _ (by norm_num; omega)
  have e3 : x0 + x1 * 2 ^ 8 + x2 * 2 ^ 16 ||| x3 <<< 24 =
      x0 + x1 * 2 ^ 8 + x2 * 2 ^ 16 + x3 * 2 ^ 24 :=
    or_shift_eq_add _ _ _ (by norm_num; omega)
  have h255 : (255 : ℕ) = 2 ^ 8 - 1 := by norm_num
  intro k hk
  rw [e1, e2, e3, Nat.shiftRight_eq_div_pow, h255, Nat.and_pow_two_sub_one_eq_mod]
  interval_cases k <;> · norm_num; omega

/-- Evaluating a fold of guarded pointwise updates away from every updated index. -/
theorem foldl_update_apply_of_ne (l : List ℕ) (v : ℕ → ℕ) (P : ℕ → Bool) (a d : ℕ → ℕ)
    (x : ℕ) (hx : ∀ i ∈ l, P i = true → a i ≠ x) :
    (l.foldl (fun w i => if P i then Function.update w (a i) (d i) else w) v) x = v x := by
  induction l generalizing v with
  | nil => rfl
  | cons i t ih =>
    simp only [List.foldl_cons]
    by_cases hP : P i = true
    · rw [if_pos hP, ih _ fun j hj hPj => hx j (List.mem_cons_of_mem _ hj) hPj,
        Function.update_noteq (Ne.symm (hx i (List.mem_cons_self _ _) hP))]
    · rw [if_neg hP]
      exact ih _ fun j hj hPj => hx j (List.mem_cons_of_mem _ hj) hPj

/-- Evaluating a fold of guarded pointwise updates at an updated index. -/
theorem foldl_update_apply_mem (l : List ℕ) (hnd : l.Nodup) (v : ℕ → ℕ) (P : ℕ → Bool)
    (a d : ℕ → ℕ) (k : ℕ) (hk : k ∈ l) (hP : P k = true)
    (hinj : ∀ i ∈ l, i ≠ k → a i ≠ a k) :
    (l.foldl (fun w i => if P i then Function.update w (a i) (d i) else w) v) (a k) = d k := by
  induction l generalizing v with
  | nil => cases hk
  | cons i t ih =>
    obtain ⟨hit, hndt⟩ := List.nodup_cons.mp hnd
    simp only [List.foldl_cons]
    rcases List.mem_cons.mp hk with rfl | hkt
    · rw [if_pos hP]
      have hrest : ∀ j ∈ t, P j = true → a j ≠ a k := by
        intro j hj _
        refine hinj j (List.mem_cons_of_mem _ hj) ?_
        rintro rfl; exact hit hj
      rw [foldl_update_apply_of_ne t _ _ _ _ _ hrest, Function.update_same]
    · exact ih hndt _ hkt fun j hj hjk => hinj j (List.mem_cons_of_mem _ hj) hjk

/-- Characterization of the I/O-register branch of `process_packet_gfx`:
for a packet that classifies as an in-range I/O access at adjusted address
`A`, the function behaves as the explicit small-step on the right. -/
theorem gfx_io_spec (strict : Bool) (s : SisState) (pkt : Packet) (A : ℕ)
    (hacc : is_io_access pkt A) (hA : A < GFX_REG_SIZE) (is_read : Bool) :
    InitGfx.process_packet_gfx strict s pkt is_read =
      (let data := io_databyte pkt A
       let s1 := if is_read then s
         else { s with gfx_reg := Function.update s.gfx_reg A data }
       let result0 := if is_read then s1.gfx_reg A else 0
       let result1 := if s1.ramtype_req then InitGfx.RAM_TYPE else result0
       let result2 :=
         if s1.vramsize_req then get_vram_config_reg VRAM_SIZE InitGfx.SISUSB_RAM_CONFIG
         else result1
       let s2 := { s1 with ramtype_req := false, vramsize_req := false }
       let s3 :=
         if A = 0x44 then
           if data = 0x3a then { s2 with ramtype_req := true }
           else if data = 0x14 then { s2 with vramsize_req := true }
           else s2
         else s2
       (s3, (result2 <<< io_shift A) % U32)) := by
  obtain ⟨hty, hadj⟩ := hacc
  have hne : ¬ (pkt.header % U16 = 0x008f) := by
    intro h
    rw [h] at hty
    revert hty
    decide
  simp only [InitGfx.process_packet_gfx, if_neg hne, hty, hadj, io_databyte, if_pos hA]
  norm_num [ SISUSB_TYPE_IO]

/-- A byte value shifted to any byte lane still fits in a `uint32_t`. -/
theorem shift_result_lt (x A : ℕ) (hx : x < 256) : (x <<< io_shift A) % U32 = x <<< io_shift A := by
  apply Nat.mod_eq_of_lt
  have h3 : A &&& 3 ≤ 3 := Nat.and_le_right
  have hsh : io_shift A ≤ 24 := by
    simp only [io_shift, Nat.shiftLeft_eq]
    omega
  calc x <<< io_shift A = x * 2 ^ io_shift A := Nat.shiftLeft_eq _ _
  _ ≤ 255 * 2 ^ 24 := by
      apply Nat.mul_le_mul (by omega)
      exact Nat.pow_le_pow_right (by norm_num) hsh
  _ < U32 := by norm_num [U32]

/-- An in-range I/O read replies with the pending synthesized byte if a
one-shot query is armed (VRAM-size taking precedence), else the stored
register byte, lane-shifted and truncated to 32 bits. -/
theorem gfx_io_read_result (s : SisState) (pkt : Packet) (A : ℕ)
    (hacc : is_io_access pkt A) (hA : A < GFX_REG_SIZE) :
    (InitGfx.process_packet_gfx false s pkt true).2 =
      ((if s.vramsize_req then get_vram_config_reg VRAM_SIZE InitGfx.SISUSB_RAM_CONFIG
        else if s.ramtype_req then InitGfx.RAM_TYPE
        else s.gfx_reg A) <<< io_shift A) % U32 := by
  rw [gfx_io_spec false s pkt A hacc hA true]
  simp

/-- An in-range I/O read that does not re-arm a query leaves the stores
untouched and clears both one-shot flags. -/
theorem gfx_io_read_state (s : SisState) (pkt : Packet) (A : ℕ)
    (hacc : is_io_access pkt A) (hA : A < GFX_REG_SIZE) (hnr : ¬ io_rearm pkt A) :
    (InitGfx.process_packet_gfx false s pkt true).1 =
      { s with ramtype_req := false, vramsize_req := false } := by
  rw [gfx_io_spec false s pkt A hacc hA true]
  by_cases hA44 : A = 0x44
  · subst hA44
    have hb1 : io_databyte pkt 0x44 ≠ 0x3a := fun hb0 => hnr ⟨rfl, Or.inl hb0⟩
    have hb2 : io_databyte pkt 0x44 ≠ 0x14 := fun hb0 => hnr ⟨rfl, Or.inr hb0⟩
    simp [hb1, hb2]
  · simp [hA44]

/-- An in-range I/O write that does not re-arm a query stores the selected
data byte and clears both one-shot flags. -/
theorem gfx_io_write_state_no_rearm (s : SisState) (pkt : Packet) (A : ℕ)
    (hacc : is_io_access pkt A) (hA : A < GFX_REG_SIZE) (hnr : ¬ io_rearm pkt A) :
    (InitGfx.process_packet_gfx false s pkt false).1 =
      { s with gfx_reg := Function.update s.gfx_reg A (io_databyte pkt A),
               ramtype_req := false, vramsize_req := false } := by
  rw [gfx_io_spec false s pkt A hacc hA false]
  by_cases hA44 : A = 0x44
  · subst hA44
    have hb1 : io_databyte pkt 0x44 ≠ 0x3a := fun hb0 => hnr ⟨rfl, Or.inl hb0⟩
    have hb2 : io_databyte pkt 0x44 ≠ 0x14 := fun hb0 => hnr ⟨rfl, Or.inr hb0⟩
    simp [hb1, hb2]
  · simp [hA44]

/-- A write of trigger byte 0x3A (resp. 0x14) to adjusted I/O address 0x44
stores the byte and arms the corresponding one-shot flag. -/
theorem gfx_io_write_state_arm (s : SisState) (pkt : Packet) (trig : ℕ)
    (htrig : trig = 0x3a ∨ trig = 0x14)
    (hacc : is_io_access pkt 0x44) (hd : io_databyte pkt 0x44 = trig) :
    (InitGfx.process_packet_gfx false s pkt false).1 =
      { s with gfx_reg := Function.update s.gfx_reg 0x44 trig,
               ramtype_req := decide (trig = 0x3a),
               vramsize_req := decide (trig = 0x14) } := by
  rw [gfx_io_spec false s pkt 0x44 hacc (by norm_num [GFX_REG_SIZE]) false, hd]
  rcases htrig with rfl | rfl <;> simp

/-! ## Claim theorems -/

/-- **C6**: with the asymmetric (1.5×) topology mode (`mode = 2`), the
VRAM-size encoding function returns `(power <<< 4) ||| (mode <<< 2)` with
`power = 2`, i.e. the byte 0x28, for the advertised configuration; in
particular `get_vram_config_reg VRAM_SIZE SISUSB_RAM_ASYM`, as invoked on
the armed VRAM-size one-shot read path of the full-initialization variant,
evaluates to 0x28 (also as the word actually replied to the armed read). -/
theorem C6_vram_size_encoding_asym :
    get_vram_config_reg VRAM_SIZE SISUSB_RAM_ASYM = (2 <<< 4) ||| (SISUSB_RAM_ASYM <<< 2) ∧
    get_vram_config_reg VRAM_SIZE SISUSB_RAM_ASYM = 0x28 ∧
    (InitGfx.process_packet_gfx false { initState with vramsize_req := true }
        ⟨0x0040, 0xd044, 0⟩ true).2 = 0x28 := by
  refine ⟨by decide, by decide, by decide⟩

/-- **C7**: for every 32-bit address `A` and value `V`, a PCI-config write of
`V` at `A` followed by a PCI-config read at `A` returns `V`; both accesses
use the cell `A &&& (capacity - 1)` of the 128-word store, and no
PCI-config access can fail a bounds check because the masking is
unconditional. -/
theorem C7_pci_config_roundtrip (s : SisState) (A V : ℕ) (hA : A < U32) (hV : V < U32) :
    (InitGfx.process_packet_gfx false
        (InitGfx.process_packet_gfx false s ⟨0x008f, A, V⟩ false).1
        ⟨0x008f, A, 0⟩ true).2 = V ∧
    (InitGfx.process_packet_gfx false s ⟨0x008f, A, V⟩ false).1.pci_config
        (A &&& (PCI_CONFIG_SIZE - 1)) = V ∧
    A &&& (PCI_CONFIG_SIZE - 1) < PCI_CONFIG_SIZE := by
  have hA' : A % U32 = A := Nat.mod_eq_of_lt hA
  have hV' : V % U32 = V := Nat.mod_eq_of_lt hV
  have h16 : (0x008f : ℕ) % U16 = 0x008f := by decide
  refine ⟨?_, ?_, lt_of_le_of_lt Nat.and_le_right (by norm_num [PCI_CONFIG_SIZE])⟩ <;>
    simp [InitGfx.process_packet_gfx, hA', hV', h16]

theorem C7_pci_config_roundtrip_witness :
    (InitGfx.process_packet_gfx false
        (InitGfx.process_packet_gfx false initState ⟨0x008f, 0x1b5, 0xdeadbeef⟩ false).1
        ⟨0x008f, 0x1b5, 0⟩ true).2 = 0xdeadbeef ∧
    (InitGfx.process_packet_gfx false initState ⟨0x008f, 0x1b5, 0xdeadbeef⟩ false).1.pci_config
        (0x1b5 &&& (PCI_CONFIG_SIZE - 1)) = 0xdeadbeef ∧
    0x1b5 &&& (PCI_CONFIG_SIZE - 1) < PCI_CONFIG_SIZE :=
  C7_pci_config_roundtrip initState 0x1b5 0xdeadbeef (by decide) (by decide)

/-- **C8**: a bridge-register access whose word index (address divided
by 4) is at least the store capacity (1024 words) is rejected: a read
returns 0, the state (stores and BulkState) is left unchanged, and the
out-of-bounds warning is logged; the PCI-config and lenient-mode VRAM
spaces can never be rejected since their index masking is unconditional. -/
theorem C8_bridge_out_of_range_rejected (s : SisState) (pkt : Packet) (is_read : Bool)
    (h : pkt.address % U32 / 4 ≥ PCI_BRIDGE_REG_SIZE) :
    (InitGfx.process_packet_bridge s pkt is_read).s = s ∧
    (InitGfx.process_packet_bridge s pkt is_read).result = 0 ∧
    (InitGfx.process_packet_bridge s pkt is_read).warn_oob = true ∧
    (∀ A : ℕ, A &&& (PCI_CONFIG_SIZE - 1) < PCI_CONFIG_SIZE) ∧
    (∀ a : ℕ, a &&& (VRAM_SIZE - 1) < VRAM_SIZE) := by
  simp only [InitGfx.process_packet_bridge, if_pos h]
  refine ⟨trivial, trivial, trivial, ?_, ?_⟩
  · exact fun A => lt_of_le_of_lt Nat.and_le_right (by norm_num [PCI_CONFIG_SIZE])
  · exact fun a => lt_of_le_of_lt Nat.and_le_right (by norm_num [VRAM_SIZE])

theorem C8_bridge_out_of_range_rejected_witness :
    (InitGfx.process_packet_bridge initState ⟨0x001f, 0x4000, 5⟩ false).s = initState ∧
    (InitGfx.process_packet_bridge initState ⟨0x001f, 0x4000, 5⟩ false).result = 0 ∧
    (InitGfx.process_packet_bridge initState ⟨0x001f, 0x4000, 5⟩ false).warn_oob = true ∧
    (∀ A : ℕ, A &&& (PCI_CONFIG_SIZE - 1) < PCI_CONFIG_SIZE) ∧
    (∀ a : ℕ, a &&& (VRAM_SIZE - 1) < VRAM_SIZE) :=
  C8_bridge_out_of_range_rejected initState ⟨0x001f, 0x4000, 5⟩ false (by decide)

/-- **C1** (counterexample): as stated, the claim fails when the rejected
chunk exhausts `remainingLength` while configured: the premise (chunk would
overflow VRAM in lenient mode) holds, yet afterwards the bulk cursor does
not equal `targetAddress + L` — the state machine has reset it to 0. -/
theorem C1_cursor_advance_counterexample :
    (u32sub (0xd0900000 : ℕ) SISUSB_PCI_MEMBASE + ([1, 2, 3, 4] : List ℕ).length) % U32 >
      VRAM_SIZE ∧
    (Mouse.bulk_chunk_step
        { initState with bulk_address := 0xd0900000, bulk_length := 4, bulk_configured := true }
        [1, 2, 3, 4]).bulk_address ≠
      (0xd0900000 + ([1, 2, 3, 4] : List ℕ).length) % U32 := by
  decide

/-- **C1** (amended): a streamed chunk of requested length `L` received
while the bulk target would overflow VRAM (`targetAddress - VRAM_BASE + L >
VRAM_SIZE` on `uint32_t`) applies zero bytes to VRAM (whole chunk rejected,
never a partial write) and raises the diagnostic; afterwards
`remainingLength` still decreases by `L`, and the bulk cursor still
advances by `L` — unless that chunk brings `remainingLength` to zero while
the transfer is configured, in which case BulkState resets to Idle
(cursor 0, flags 0, configured false). -/
theorem C1_bulk_overflow_chunk_rejected (s : SisState) (chunk : List ℕ)
    (hL : chunk.length < U32) (hlen : s.bulk_length < U32)
    (hcond : (u32sub s.bulk_address SISUSB_PCI_MEMBASE + chunk.length) % U32 > VRAM_SIZE) :
    (∀ a, (Mouse.bulk_chunk_step s chunk).vram a = s.vram a) ∧
    (Mouse.vram_bulk_write s.vram s.bulk_address chunk chunk.length).2 = true ∧
    (Mouse.bulk_chunk_step s chunk).bulk_length = u32sub s.bulk_length chunk.length ∧
    (¬(s.bulk_configured = true ∧ u32sub s.bulk_length chunk.length = 0) →
      (Mouse.bulk_chunk_step s chunk).bulk_address = (s.bulk_address + chunk.length) % U32) ∧
    ((s.bulk_configured = true ∧ u32sub s.bulk_length chunk.length = 0) →
      (Mouse.bulk_chunk_step s chunk).bulk_address = 0 ∧
      (Mouse.bulk_chunk_step s chunk).bulk_configured = false ∧
      (Mouse.bulk_chunk_step s chunk).bulk_flags = 0) := by
  have hL' : chunk.length % U32 = chunk.length := Nat.mod_eq_of_lt hL
  have hlen' : s.bulk_length % U32 = s.bulk_length := Nat.mod_eq_of_lt hlen
  simp only [Mouse.bulk_chunk_step, Mouse.vram_bulk_write, u32sub, hL', hlen'] at hcond ⊢
  simp only [hcond, decide_True, if_true, gt_iff_lt, lt_irrefl, if_false]
  split_ifs with hr <;> simp_all

theorem C1_bulk_overflow_chunk_rejected_witness :
    (∀ a, (Mouse.bulk_chunk_step { initState with bulk_address := 0xd0900000, bulk_length := 8, bulk_configured := true } [9, 9]).vram a = ({ initState with bulk_address := 0xd0900000, bulk_length := 8, bulk_configured := true } : SisState).vram a) ∧
    (Mouse.vram_bulk_write ({ initState with bulk_address := 0xd0900000, bulk_length := 8, bulk_configured := true } : SisState).vram 0xd0900000 [9, 9] ([9, 9] : List ℕ).length).2 = true ∧
    (Mouse.bulk_chunk_step { initState with bulk_address := 0xd0900000, bulk_length := 8, bulk_configured := true } [9, 9]).bulk_length = u32sub 8 ([9, 9] : List ℕ).length ∧
    (¬((true : Bool) = true ∧ u32sub 8 ([9, 9] : List ℕ).length = 0) →
      (Mouse.bulk_chunk_step { initState with bulk_address := 0xd0900000, bulk_length := 8, bulk_configured := true } [9, 9]).bulk_address = (0xd0900000 + ([9, 9] : List ℕ).length) % U32) ∧
    (((true : Bool) = true ∧ u32sub 8 ([9, 9] : List ℕ).length = 0) →
      (Mouse.bulk_chunk_step { initState with bulk_address := 0xd0900000, bulk_length := 8, bulk_configured := true } [9, 9]).bulk_address = 0 ∧
      (Mouse.bulk_chunk_step { initState with bulk_address := 0xd0900000, bulk_length := 8, bulk_configured := true } [9, 9]).bulk_configured = false ∧
      (Mouse.bulk_chunk_step { initState with bulk_address := 0xd0900000, bulk_length := 8, bulk_configured := true } [9, 9]).bulk_flags = 0) :=
  C1_bulk_overflow_chunk_rejected
    { initState with bulk_address := 0xd0900000, bulk_length := 8, bulk_configured := true }
    [9, 9] (by decide) (by decide) (by decide)

/-- **C4**: any accepted (in-range) bridge-register write that leaves
BulkState with `targetAddress = 0xFFFFFFF0` and `remainingLength > 0x10`
sets the OverflowFlag; in particular, configuring BulkState with
`targetAddress = 0xFFFFFFF0` and `remainingLength = 0xFFFFFF` through the
bridge configuration registers (address, length, flags-commit) and then
sending a single chunk leaves the OverflowFlag observably set. -/
theorem C4_overflow_sentinel_sets_flag (s : SisState) (pkt : Packet)
    (hin : pkt.address % U32 / 4 < PCI_BRIDGE_REG_SIZE)
    (haddr : (Mouse.process_packet_bridge s pkt false).s.bulk_address = 0xfffffff0)
    (hlen : (Mouse.process_packet_bridge s pkt false).s.bulk_length > 0x10) :
    (Mouse.process_packet_bridge s pkt false).s.overflow = true ∧
    (Mouse.bulk_chunk_step
        (Mouse.process_packet_bridge
          (Mouse.process_packet_bridge
            (Mouse.process_packet_bridge initState ⟨0x001f, 0x194, 0xfffffff0⟩ false).s
            ⟨0x001f, 0x190, 0xffffff⟩ false).s
          ⟨0x001f, 0x180, 0x1⟩ false).s
        [0, 0, 0, 0]).overflow = true := by
  refine ⟨?_, by decide⟩
  simp only [Mouse.process_packet_bridge] at haddr hlen ⊢
  rw [if_neg (not_le.mpr hin)] at haddr hlen ⊢
  split_ifs at haddr hlen ⊢ <;> simp_all

theorem C4_overflow_sentinel_sets_flag_witness :
    (Mouse.process_packet_bridge { initState with bulk_address := 0xfffffff0 }
        ⟨0x001f, 0x190, 0xffffff⟩ false).s.overflow = true ∧
    (Mouse.bulk_chunk_step
        (Mouse.process_packet_bridge
          (Mouse.process_packet_bridge
            (Mouse.process_packet_bridge initState ⟨0x001f, 0x194, 0xfffffff0⟩ false).s
            ⟨0x001f, 0x190, 0xffffff⟩ false).s
          ⟨0x001f, 0x180, 0x1⟩ false).s
        [0, 0, 0, 0]).overflow = true :=
  C4_overflow_sentinel_sets_flag { initState with bulk_address := 0xfffffff0 }
    ⟨0x001f, 0x190, 0xffffff⟩ (by decide) (by decide) (by decide)

/-- **C10**: in the full-initialization variant's bulk path, the truncated
length `VRAM_SIZE - base_addr` is computed in 32-bit unsigned arithmetic;
whenever the chunk's base offset `base_addr = targetAddress - VRAM_BASE`
exceeds `VRAM_SIZE`, that subtraction wraps modulo 2^32 to a value greater
than `VRAM_SIZE`, so the bounds guard does not reduce the applied length to
fit: the length actually applied exceeds the space remaining in the VRAM
store (and is positive, so the out-of-bounds write path is reached). -/
theorem C10_bulk_truncated_length_wraps (address length : ℕ)
    (hA : address < U32) (hL : length < U32)
    (hbase : u32sub address SISUSB_PCI_MEMBASE > VRAM_SIZE) :
    u32sub VRAM_SIZE (u32sub address SISUSB_PCI_MEMBASE) > VRAM_SIZE ∧
    InitGfx.bulk_applied_len address length >
      VRAM_SIZE - u32sub address SISUSB_PCI_MEMBASE ∧
    0 < InitGfx.bulk_applied_len address length := by
  simp only [u32sub, InitGfx.bulk_applied_len, U32, VRAM_SIZE, SISUSB_PCI_MEMBASE] at *
  refine ⟨by omega, ?_, ?_⟩ <;> · split <;> omega

theorem C10_bulk_truncated_length_wraps_witness :
    u32sub VRAM_SIZE (u32sub 0xd0a00000 SISUSB_PCI_MEMBASE) > VRAM_SIZE ∧
    InitGfx.bulk_applied_len 0xd0a00000 16 >
      VRAM_SIZE - u32sub 0xd0a00000 SISUSB_PCI_MEMBASE ∧
    0 < InitGfx.bulk_applied_len 0xd0a00000 16 :=
  C10_bulk_truncated_length_wraps 0xd0a00000 16 (by decide) (by decide) (by decide)

/-- **C3**: after writing trigger byte 0x3A (RAM-type query) or 0x14
(VRAM-size query) to I/O-register offset 0x44, the next I/O-register read
(at any in-range adjusted address, here not itself re-arming a query)
returns the synthesized value — the RAM-type constant, respectively the
encoded VRAM-size byte — lane-shifted, instead of the stored register
value, and both one-shot flags are clear after that read; a second read
without re-arming returns the underlying stored register value. -/
theorem C3_one_shot_query_law (s : SisState) (trig : ℕ) (htrig : trig = 0x3a ∨ trig = 0x14)
    (hrt : s.ramtype_req = false) (hvs : s.vramsize_req = false)
    (hreg : ∀ i, s.gfx_reg i < 256)
    (p0 p1 p2 : Packet) (A1 A2 : ℕ)
    (h0 : is_io_access p0 0x44) (h0d : io_databyte p0 0x44 = trig)
    (h1 : is_io_access p1 A1) (hA1 : A1 < GFX_REG_SIZE) (hnr1 : ¬ io_rearm p1 A1)
    (h2 : is_io_access p2 A2) (hA2 : A2 < GFX_REG_SIZE) :
    (InitGfx.process_packet_gfx false (InitGfx.process_packet_gfx false s p0 false).1 p1 true).2
      = (if trig = 0x3a then InitGfx.RAM_TYPE
         else get_vram_config_reg VRAM_SIZE InitGfx.SISUSB_RAM_CONFIG) <<< io_shift A1 ∧
    (InitGfx.process_packet_gfx false (InitGfx.process_packet_gfx false s p0 false).1 p1
        true).1.ramtype_req = false ∧
    (InitGfx.process_packet_gfx false (InitGfx.process_packet_gfx false s p0 false).1 p1
        true).1.vramsize_req = false ∧
    (InitGfx.process_packet_gfx false
        (InitGfx.process_packet_gfx false (InitGfx.process_packet_gfx false s p0 false).1 p1
          true).1 p2 true).2
      = (InitGfx.process_packet_gfx false (InitGfx.process_packet_gfx false s p0 false).1 p1
          true).1.gfx_reg A2 <<< io_shift A2 := by
  have e0 := gfx_io_write_state_arm s p0 trig htrig h0 h0d
  rw [e0]
  have hupd : ∀ i, Function.update s.gfx_reg 0x44 trig i < 256 := by
    intro i
    rcases eq_or_ne i 0x44 with rfl | hne
    · rcases htrig with rfl | rfl <;> simp
    · rw [Function.update_noteq hne]; exact hreg i
  rcases htrig with rfl | rfl <;>
  · refine ⟨?_, ?_, ?_, ?_⟩
    · rw [gfx_io_read_result _ p1 A1 h1 hA1]
      norm_num
      exact shift_result_lt _ _ (by decide)
    · rw [gfx_io_read_state _ p1 A1 h1 hA1 hnr1]
    · rw [gfx_io_read_state _ p1 A1 h1 hA1 hnr1]
    · rw [gfx_io_read_state _ p1 A1 h1 hA1 hnr1, gfx_io_read_result _ p2 A2 h2 hA2]
      norm_num
      exact shift_result_lt _ _ (hupd A2)

theorem C3_one_shot_query_law_witness :
    (InitGfx.process_packet_gfx false
        (InitGfx.process_packet_gfx false initState ⟨0x0040, 0xd044, 0x3a⟩ false).1
        ⟨0x0040, 0xd044, 0⟩ true).2
      = (if (0x3a : ℕ) = 0x3a then InitGfx.RAM_TYPE
         else get_vram_config_reg VRAM_SIZE InitGfx.SISUSB_RAM_CONFIG) <<< io_shift 0x44 ∧
    (InitGfx.process_packet_gfx false
        (InitGfx.process_packet_gfx false initState ⟨0x0040, 0xd044, 0x3a⟩ false).1
        ⟨0x0040, 0xd044, 0⟩ true).1.ramtype_req = false ∧
    (InitGfx.process_packet_gfx false
        (InitGfx.process_packet_gfx false initState ⟨0x0040, 0xd044, 0x3a⟩ false).1
        ⟨0x0040, 0xd044, 0⟩ true).1.vramsize_req = false ∧
    (InitGfx.process_packet_gfx false
        (InitGfx.process_packet_gfx false
          (InitGfx.process_packet_gfx false initState ⟨0x0040, 0xd044, 0x3a⟩ false).1
          ⟨0x0040, 0xd044, 0⟩ true).1
        ⟨0x0040, 0xd044, 0⟩ true).2
      = (InitGfx.process_packet_gfx false
          (InitGfx.process_packet_gfx false initState ⟨0x0040, 0xd044, 0x3a⟩ false).1
          ⟨0x0040, 0xd044, 0⟩ true).1.gfx_reg 0x44 <<< io_shift 0x44 :=
  C3_one_shot_query_law initState 0x3a (Or.inl rfl) rfl rfl (fun _ => by simp [initState])
    ⟨0x0040, 0xd044, 0x3a⟩ ⟨0x0040, 0xd044, 0⟩ ⟨0x0040, 0xd044, 0⟩ 0x44 0x44
    (by decide) (by decide) (by decide) (by decide) (by decide)
    (by decide) (by decide)

/-- **C9** (counterexample): the claim fails when the intervening in-range
write is itself an arming write.  Arm the RAM-type query (write 0x3A to
offset 0x44), write 0x3A to offset 0x44 again, then read offset 0x44: the
read returns the synthesized RAM-type constant, not the stored register
value 0x3A as the claim demands. -/
theorem C9_intervening_write_counterexample :
    (InitGfx.process_packet_gfx false
        (InitGfx.process_packet_gfx false
          (InitGfx.process_packet_gfx false initState ⟨0x0040, 0xd044, 0x3a⟩ false).1
          ⟨0x0040, 0xd044, 0x3a⟩ false).1
        ⟨0x0040, 0xd044, 0⟩ true).2 = InitGfx.RAM_TYPE ∧
    (InitGfx.process_packet_gfx false
        (InitGfx.process_packet_gfx false initState ⟨0x0040, 0xd044, 0x3a⟩ false).1
        ⟨0x0040, 0xd044, 0x3a⟩ false).1.gfx_reg 0x44 = 0x3a ∧
    (InitGfx.process_packet_gfx false
        (InitGfx.process_packet_gfx false
          (InitGfx.process_packet_gfx false initState ⟨0x0040, 0xd044, 0x3a⟩ false).1
          ⟨0x0040, 0xd044, 0x3a⟩ false).1
        ⟨0x0040, 0xd044, 0⟩ true).2 ≠
      (InitGfx.process_packet_gfx false
          (InitGfx.process_packet_gfx false initState ⟨0x0040, 0xd044, 0x3a⟩ false).1
          ⟨0x0040, 0xd044, 0x3a⟩ false).1.gfx_reg 0x44 <<< io_shift 0x44 := by
  decide

/-- **C9** (amended): a pending one-shot RAM-type or VRAM-size flag is
consumed by the next in-range I/O-register access of either kind, not only
by a read: an I/O-register write to any adjusted address below 128 that is
not itself an arming write (trigger byte 0x3A/0x14 to offset 0x44) leaves
both pending flags clear, so the following read returns the underlying
lane-shifted stored register value rather than the synthesized one. -/
theorem C9_flag_consumed_by_any_access (s : SisState) (hreg : ∀ i, s.gfx_reg i < 256)
    (pw : Packet) (A : ℕ) (hw : is_io_access pw A) (hA : A < GFX_REG_SIZE)
    (hnr : ¬ io_rearm pw A)
    (pr : Packet) (A2 : ℕ) (hr : is_io_access pr A2) (hA2 : A2 < GFX_REG_SIZE) :
    (InitGfx.process_packet_gfx false s pw false).1.ramtype_req = false ∧
    (InitGfx.process_packet_gfx false s pw false).1.vramsize_req = false ∧
    (InitGfx.process_packet_gfx false
        (InitGfx.process_packet_gfx false s pw false).1 pr true).2
      = (InitGfx.process_packet_gfx false s pw false).1.gfx_reg A2 <<< io_shift A2 := by
  rw [gfx_io_write_state_no_rearm s pw A hw hA hnr]
  have hupd : ∀ i, Function.update s.gfx_reg A (io_databyte pw A) i < 256 := by
    intro i
    rcases eq_or_ne i A with rfl | hne
    · rw [Function.update_same]
      exact lt_of_le_of_lt Nat.and_le_right (by norm_num)
    · rw [Function.update_noteq hne]; exact hreg i
  refine ⟨rfl, rfl, ?_⟩
  rw [gfx_io_read_result _ pr A2 hr hA2]
  norm_num
  exact shift_result_lt _ _ (hupd A2)

theorem C9_flag_consumed_by_any_access_witness :
    (InitGfx.process_packet_gfx false
        { initState with ramtype_req := true } ⟨0x0040, 0xd050, 0x77⟩ false).1.ramtype_req
      = false ∧
    (InitGfx.process_packet_gfx false
        { initState with ramtype_req := true } ⟨0x0040, 0xd050, 0x77⟩ false).1.vramsize_req
      = false ∧
    (InitGfx.process_packet_gfx false
        (InitGfx.process_packet_gfx false
          { initState with ramtype_req := true } ⟨0x0040, 0xd050, 0x77⟩ false).1
        ⟨0x0040, 0xd044, 0⟩ true).2
      = (InitGfx.process_packet_gfx false
          { initState with ramtype_req := true } ⟨0x0040, 0xd050, 0x77⟩ false).1.gfx_reg 0x44
          <<< io_shift 0x44 :=
  C9_flag_consumed_by_any_access { initState with ramtype_req := true }
    (fun _ => by simp [initState]) ⟨0x0040, 0xd050, 0x77⟩ 0x50
    (by decide) (by decide) (by decide) ⟨0x0040, 0xd044, 0⟩ 0x44 (by decide) (by decide)

/-- Lenient-mode address wrap always lands inside the VRAM store. -/
theorem vram_mask_lt : ∀ x : ℕ, x &&& (VRAM_SIZE - 1) < VRAM_SIZE :=
  fun _ => lt_of_le_of_lt Nat.and_le_right (by norm_num [VRAM_SIZE])

/-- The VRAM store after a packet-decoded MEM write: one guarded byte
update per enabled lane, at the lane address wrapped by `VRAM_SIZE - 1`
(lenient mode). -/
theorem gfx_mem_write_vram (s : SisState) (pkt : Packet)
    (hne : pkt.header % U16 ≠ 0x008f)
    (hty : ((pkt.header % U16) >>> 6) &&& 0x03 = SISUSB_TYPE_MEM) :
    (InitGfx.process_packet_gfx false s pkt false).1.vram =
      [0, 1, 2, 3].foldl
        (fun v i => if ((pkt.header % U16) &&& 0x0F).testBit i then
            Function.update v
              (((u32sub (pkt.address % U32) SISUSB_PCI_MEMBASE + i) % U32) &&& (VRAM_SIZE - 1))
              (((pkt.data % U32) >>> (i * 8)) &&& 0xFF)
          else v) s.vram := by
  have hIO : ¬ (SISUSB_TYPE_MEM = SISUSB_TYPE_IO) := by decide
  simp only [InitGfx.process_packet_gfx, if_neg hne, hty, if_neg hIO, if_pos rfl]
  simp only [List.foldl, Bool.not_false, if_true, if_pos (vram_mask_lt _), Bool.false_eq_true,
    if_false, ite_self, apply_ite SisState.vram]

/-- The result of a packet-decoded MEM read in lenient mode: an `|||`
accumulation of one stored byte per enabled lane. -/
theorem gfx_mem_read_result (s : SisState) (pkt : Packet)
    (hne : pkt.header % U16 ≠ 0x008f)
    (hty : ((pkt.header % U16) >>> 6) &&& 0x03 = SISUSB_TYPE_MEM) :
    (InitGfx.process_packet_gfx false s pkt true).2 =
      [0, 1, 2, 3].foldl
        (fun result i => if ((pkt.header % U16) &&& 0x0F).testBit i then
            result |||
              ((s.vram (((u32sub (pkt.address % U32) SISUSB_PCI_MEMBASE + i) % U32) &&&
                (VRAM_SIZE - 1)) % 256) <<< (i * 8))
          else result) 0 := by
  have hIO : ¬ (SISUSB_TYPE_MEM = SISUSB_TYPE_IO) := by decide
  simp only [InitGfx.process_packet_gfx, if_neg hne, hty, if_neg hIO, if_pos rfl]
  simp only [List.foldl, Bool.not_false, if_true, if_pos (vram_mask_lt _)]

/-- The wrapped per-lane VRAM address is addition modulo `2^23`. -/
theorem lane_addr_mod (b k : ℕ) :
    ((b + k) % U32) &&& (VRAM_SIZE - 1) = (b + k) % 2 ^ 23 := by
  have h1 : (VRAM_SIZE - 1 : ℕ) = 2 ^ 23 - 1 := by norm_num [VRAM_SIZE]
  have h2 : U32 = 2 ^ 32 := rfl
  rw [h1, Nat.and_pow_two_sub_one_eq_mod, h2,
    Nat.mod_mod_of_dvd _ (by norm_num : (2 : ℕ) ^ 23 ∣ 2 ^ 32)]

/-- Distinct lanes of one access wrap to distinct VRAM cells. -/
theorem lane_addr_ne (b i j : ℕ) (hi : i < 4) (hj : j < 4) (hij : i ≠ j) :
    ((b + i) % U32) &&& (VRAM_SIZE - 1) ≠ ((b + j) % U32) &&& (VRAM_SIZE - 1) := by
  rw [lane_addr_mod, lane_addr_mod]
  intro he
  rcases Nat.lt_or_ge i j with hlt | hge
  · have hd : (2 : ℕ) ^ 23 ∣ (b + j) - (b + i) :=
      (Nat.modEq_iff_dvd' (by omega)).mp he
    have := Nat.le_of_dvd (by omega) hd
    omega
  · have hlt : j < i := by omega
    have hd : (2 : ℕ) ^ 23 ∣ (b + i) - (b + j) :=
      (Nat.modEq_iff_dvd' (by omega)).mp he.symm
    have := Nat.le_of_dvd (by omega) hd
    omega

/-- **C5**: for every 32-bit address `A`, 32-bit value `V` and 4-bit lane
mask `m`, with strict bounds checking disabled (lenient mode), a VRAM write
of `V` at `A` with mask `m` followed by a VRAM read at `A` with mask `m`
returns `V` restricted to the enabled byte lanes (byte `i` of the result is
byte `i` of `V` when bit `i` of `m` is set, else 0), and no access is out
of range because each per-lane address is wrapped by `VRAM_SIZE - 1`. -/
theorem C5_vram_lenient_lane_roundtrip (s : SisState) (A V m : ℕ)
    (hA : A < U32) (hV : V < U32) (hm : m < 16) :
    (∀ i < 4,
      ((InitGfx.process_packet_gfx false
          (InitGfx.process_packet_gfx false s ⟨m, A, V⟩ false).1 ⟨m, A, 0⟩ true).2 >>> (i * 8))
          &&& 0xFF
        = if m.testBit i then (V >>> (i * 8)) &&& 0xFF else 0) ∧
    (∀ i < 4, ((u32sub A SISUSB_PCI_MEMBASE + i) % U32) &&& (VRAM_SIZE - 1) < VRAM_SIZE) := by
  have hm16 : m % U16 = m := Nat.mod_eq_of_lt (lt_of_lt_of_le hm (by norm_num [U16]))
  have hA32 : A % U32 = A := Nat.mod_eq_of_lt hA
  have hV32 : V % U32 = V := Nat.mod_eq_of_lt hV
  have hne : m % U16 ≠ 0x008f := by rw [hm16]; omega
  have hty : ((m % U16) >>> 6) &&& 0x03 = SISUSB_TYPE_MEM := by
    rw [hm16, Nat.shiftRight_eq_div_pow, Nat.div_eq_of_lt (by omega), Nat.zero_and]
    rfl
  have hmand : m &&& 0x0F = m := by
    have h15 : (0x0F : ℕ) = 2 ^ 4 - 1 := by norm_num
    rw [h15, Nat.and_pow_two_sub_one_eq_mod, Nat.mod_eq_of_lt hm]
  have hdlt : ∀ j : ℕ, (V >>> (j * 8)) &&& 0xFF < 256 :=
    fun j => lt_of_le_of_lt Nat.and_le_right (by norm_num)
  refine ⟨?_, fun i _ => vram_mask_lt _⟩
  have ew := gfx_mem_write_vram s ⟨m, A, V⟩ hne hty
  have er := gfx_mem_read_result (InitGfx.process_packet_gfx false s ⟨m, A, V⟩ false).1
    ⟨m, A, 0⟩ hne hty
  simp only [hm16, hA32, hV32, hmand] at ew er
  obtain ⟨W, hW⟩ : ∃ W, (InitGfx.process_packet_gfx false s ⟨m, A, V⟩ false).1.vram = W :=
    ⟨_, rfl⟩
  have hWf : W = [0, 1, 2, 3].foldl
      (fun v i => if m.testBit i then
          Function.update v (((u32sub A SISUSB_PCI_MEMBASE + i) % U32) &&& (VRAM_SIZE - 1))
            ((V >>> (i * 8)) &&& 0xFF)
        else v) s.vram := hW.symm.trans ew
  rw [hW] at er
  have hv1 : ∀ k, k < 4 → m.testBit k = true →
      W (((u32sub A SISUSB_PCI_MEMBASE + k) % U32) &&& (VRAM_SIZE - 1))
        = (V >>> (k * 8)) &&& 0xFF := by
    intro k hk hP
    have hmem4 : ∀ i ∈ ([0, 1, 2, 3] : List ℕ), i < 4 := by decide
    rw [hWf]
    exact foldl_update_apply_mem [0, 1, 2, 3] (by decide) s.vram
      (fun i => m.testBit i)
      (fun i => ((u32sub A SISUSB_PCI_MEMBASE + i) % U32) &&& (VRAM_SIZE - 1))
      (fun i => (V >>> (i * 8)) &&& 0xFF) k
      (by interval_cases k <;> decide) hP
      (fun i hi hik => lane_addr_ne (u32sub A SISUSB_PCI_MEMBASE) i k (hmem4 i hi) hk hik)
  have hstep : ∀ (acc j : ℕ), j < 4 →
      (if m.testBit j then
        acc ||| ((W (((u32sub A SISUSB_PCI_MEMBASE + j) % U32) &&& (VRAM_SIZE - 1)) % 256)
          <<< (j * 8))
       else acc) =
      acc ||| ((if m.testBit j then (V >>> (j * 8)) &&& 0xFF else 0) <<< (j * 8)) := by
    intro acc j hj
    by_cases hP : m.testBit j = true
    · rw [if_pos hP, if_pos hP, hv1 j hj hP, Nat.mod_eq_of_lt (hdlt j)]
    · rw [if_neg hP, if_neg hP]
      simp [Nat.zero_shiftLeft]
  intro i hi
  rw [er]
  simp only [List.foldl_cons, List.foldl_nil]
  rw [hstep _ 0 (by norm_num), hstep _ 1 (by norm_num), hstep _ 2 (by norm_num),
    hstep _ 3 (by norm_num)]
  simp only [Nat.zero_or]
  show ((if m.testBit 0 then (V >>> (0 * 8)) &&& 0xFF else 0) |||
        (if m.testBit 1 then (V >>> (1 * 8)) &&& 0xFF else 0) <<< 8 |||
        (if m.testBit 2 then (V >>> (2 * 8)) &&& 0xFF else 0) <<< 16 |||
        (if m.testBit 3 then (V >>> (3 * 8)) &&& 0xFF else 0) <<< 24) >>> (i * 8) &&& 0xFF =
      if m.testBit i then (V >>> (i * 8)) &&& 0xFF else 0
  have hb : ∀ j : ℕ, (if m.testBit j then (V >>> (j * 8)) &&& 0xFF else 0) < 256 := by
    intro j
    split
    · exact hdlt j
    · norm_num
  rw [byte_extract _ _ _ _ (hb 0) (hb 1) (hb 2) (hb 3) i hi]
  interval_cases i <;> simp [List.getD]

theorem C5_vram_lenient_lane_roundtrip_witness :
    (∀ i < 4,
      ((InitGfx.process_packet_gfx false
          (InitGfx.process_packet_gfx false initState ⟨0x5, 0xd0000010, 0xAABBCCDD⟩ false).1
          ⟨0x5, 0xd0000010, 0⟩ true).2 >>> (i * 8)) &&& 0xFF
        = if (0x5 : ℕ).testBit i then ((0xAABBCCDD : ℕ) >>> (i * 8)) &&& 0xFF else 0) ∧
    (∀ i < 4,
      ((u32sub 0xd0000010 SISUSB_PCI_MEMBASE + i) % U32) &&& (VRAM_SIZE - 1) < VRAM_SIZE) :=
  C5_vram_lenient_lane_roundtrip initState 0xd0000010 0xAABBCCDD 0x5
    (by decide) (by decide) (by decide)

set_option maxRecDepth 8000 in
/-- One bulk chunk applied strictly inside VRAM: the chunk's bytes land at
the cursor's offset, everything else is untouched, the remaining length
drops by the chunk length, and the state resets to idle exactly when the
configured transfer is exhausted. -/
theorem bulk_step_in_bounds (s : SisState) (c : List ℕ) (hc : c ≠ [])
    (hA : s.bulk_address < U32) (hlen : s.bulk_length < U32)
    (hfit : u32sub s.bulk_address SISUSB_PCI_MEMBASE + c.length ≤ VRAM_SIZE)
    (hcount : c.length ≤ s.bulk_length) :
    (∀ i < c.length, (InitGfx.bulk_chunk_step s c).vram
        (u32sub s.bulk_address SISUSB_PCI_MEMBASE + i) = c.getD i 0) ∧
    (∀ a, (a < u32sub s.bulk_address SISUSB_PCI_MEMBASE ∨
           a ≥ u32sub s.bulk_address SISUSB_PCI_MEMBASE + c.length) →
        (InitGfx.bulk_chunk_step s c).vram a = s.vram a) ∧
    (InitGfx.bulk_chunk_step s c).bulk_length = s.bulk_length - c.length ∧
    ((s.bulk_configured = true ∧ s.bulk_length = c.length) →
      (InitGfx.bulk_chunk_step s c).bulk_configured = false ∧
      (InitGfx.bulk_chunk_step s c).bulk_address = 0 ∧
      (InitGfx.bulk_chunk_step s c).bulk_flags = 0) ∧
    (¬(s.bulk_configured = true ∧ s.bulk_length = c.length) →
      (InitGfx.bulk_chunk_step s c).bulk_configured = s.bulk_configured ∧
      (InitGfx.bulk_chunk_step s c).bulk_address = (s.bulk_address + c.length) % U32 ∧
      (InitGfx.bulk_chunk_step s c).bulk_flags = s.bulk_flags) := by
  have hVU : VRAM_SIZE < U32 := by norm_num [VRAM_SIZE, U32]
  have hb : u32sub s.bulk_address SISUSB_PCI_MEMBASE < U32 :=
    Nat.mod_lt _ (by norm_num [U32])
  have hcV : c.length ≤ VRAM_SIZE := le_trans (Nat.le_add_left _ _) hfit
  have hcl : c.length % U32 = c.length := Nat.mod_eq_of_lt (lt_of_le_of_lt hcV hVU)
  have hguard : ¬ ((u32sub s.bulk_address SISUSB_PCI_MEMBASE + c.length) % U32 > VRAM_SIZE) := by
    rw [Nat.mod_eq_of_lt (lt_of_le_of_lt hfit hVU)]
    omega
  have happ : InitGfx.bulk_applied_len s.bulk_address c.length = c.length := by
    simp only [InitGfx.bulk_applied_len, hcl]
    rw [if_neg hguard]
  have hvw : (InitGfx.vram_bulk_write s.vram s.bulk_address c c.length).1 =
      memcpy_vram s.vram (u32sub s.bulk_address SISUSB_PCI_MEMBASE) c c.length := by
    simp only [InitGfx.vram_bulk_write, happ]
    rw [if_pos (List.length_pos.mpr hc)]
  have hU : U32 = 4294967296 := by norm_num [U32]
  have hVn : VRAM_SIZE = 8388608 := by norm_num [VRAM_SIZE]
  have hlenU : s.bulk_length < 4294967296 := hU ▸ hlen
  have hcVn : c.length ≤ 8388608 := hVn ▸ hcV
  have hsub : u32sub s.bulk_length c.length = s.bulk_length - c.length := by
    simp only [u32sub, Nat.mod_eq_of_lt hlen, hcl, hU]
    omega
  have hv : (InitGfx.bulk_chunk_step s c).vram =
      memcpy_vram s.vram (u32sub s.bulk_address SISUSB_PCI_MEMBASE) c c.length := by
    simp only [InitGfx.bulk_chunk_step]
    simp only [hvw]
    by_cases hr : (s.bulk_configured = true ∧ u32sub s.bulk_length c.length = 0)
    · rw [if_pos hr]
    · rw [if_neg hr]
  refine ⟨?_, ?_, ?_, ?_, ?_⟩
  · intro i hi
    rw [hv]
    simp only [memcpy_vram]
    rw [if_pos ⟨Nat.le_add_right _ _, by omega⟩, Nat.add_sub_cancel_left]
  · intro a ha
    rw [hv]
    simp only [memcpy_vram]
    rw [if_neg (by omega)]
  · simp only [InitGfx.bulk_chunk_step, hsub]
    by_cases hr : (s.bulk_configured = true ∧ s.bulk_length - c.length = 0)
    · rw [if_pos hr]
    · rw [if_neg hr]
  · rintro ⟨hcfg, hexact⟩
    simp only [InitGfx.bulk_chunk_step, hsub]
    rw [if_pos ⟨hcfg, by rw [hexact]; omega⟩]
    exact ⟨rfl, rfl, rfl⟩
  · intro hno
    simp only [InitGfx.bulk_chunk_step, hsub]
    rw [if_neg (by
      rintro ⟨h1, h2⟩
      exact hno ⟨h1, by omega⟩)]
    exact ⟨rfl, rfl, rfl⟩

/-- Advancing the bulk cursor commutes with taking the VRAM base offset. -/
theorem u32sub_shift (A M L : ℕ) :
    u32sub ((A + L) % U32) M = (u32sub A M + L) % U32 := by
  simp only [u32sub]
  rw [Nat.mod_mod_of_dvd _ dvd_rfl, Nat.mod_add_mod, Nat.mod_add_mod]
  have h1 : A ≡ A % U32 [MOD U32] := (Nat.mod_modEq A U32).symm
  have h2 : A + L + (U32 - M % U32) ≡ A % U32 + (U32 - M % U32) + L [MOD U32] := by
    calc A + L + (U32 - M % U32) = A + (U32 - M % U32) + L := by ring
    _ ≡ A % U32 + (U32 - M % U32) + L [MOD U32] := (h1.add_right _).add_right _
  exact h2

/-- Streaming a nonempty list of nonempty chunks whose total length equals
the configured remaining length, with the whole target range inside VRAM:
the concatenated bytes land at consecutive offsets, other cells are
untouched, and the bulk state returns to idle. -/
theorem stream_chunks_law (chunks : List (List ℕ)) :
    ∀ s : SisState,
    chunks ≠ [] →
    (∀ c ∈ chunks, c ≠ []) →
    s.bulk_configured = true →
    s.bulk_address < U32 →
    s.bulk_length = (chunks.flatten).length →
    u32sub s.bulk_address SISUSB_PCI_MEMBASE + (chunks.flatten).length ≤ VRAM_SIZE →
    (∀ i < (chunks.flatten).length,
       (InitGfx.stream_chunks s chunks).vram (u32sub s.bulk_address SISUSB_PCI_MEMBASE + i)
         = (chunks.flatten).getD i 0) ∧
    (∀ a, (a < u32sub s.bulk_address SISUSB_PCI_MEMBASE ∨
           a ≥ u32sub s.bulk_address SISUSB_PCI_MEMBASE + (chunks.flatten).length) →
       (InitGfx.stream_chunks s chunks).vram a = s.vram a) ∧
    (InitGfx.stream_chunks s chunks).bulk_configured = false ∧
    (InitGfx.stream_chunks s chunks).bulk_address = 0 ∧
    (InitGfx.stream_chunks s chunks).bulk_flags = 0 := by
  induction chunks with
  | nil => exact fun s hne => absurd rfl hne
  | cons c t ih =>
    intro s _ hcne hcfg hA hlen hfit
    have hc : c ≠ [] := hcne c (List.mem_cons_self _ _)
    have hflat : ((c :: t).flatten).length = c.length + (t.flatten).length := by
      simp [List.flatten_cons]
    have hVU : VRAM_SIZE < U32 := by norm_num [VRAM_SIZE, U32]
    have hlenU : s.bulk_length < U32 := by
      rw [hlen]
      exact lt_of_le_of_lt (le_trans (Nat.le_add_left _ _) hfit) hVU
    have hcount : c.length ≤ s.bulk_length := by rw [hlen, hflat]; omega
    rw [hflat] at hfit
    have hfitc : u32sub s.bulk_address SISUSB_PCI_MEMBASE + c.length ≤ VRAM_SIZE := by omega
    obtain ⟨hw1, hw2, hw3, hw4, hw5⟩ := bulk_step_in_bounds s c hc hA hlenU hfitc hcount
    have hstream : InitGfx.stream_chunks s (c :: t) =
        InitGfx.stream_chunks (InitGfx.bulk_chunk_step s c) t := rfl
    by_cases ht : t = []
    · subst ht
      have hx : s.bulk_length = c.length := by
        rw [hlen]; simp
      obtain ⟨hr1, hr2, hr3⟩ := hw4 ⟨hcfg, hx⟩
      rw [hstream]
      have hid : InitGfx.stream_chunks (InitGfx.bulk_chunk_step s c) [] =
          InitGfx.bulk_chunk_step s c := rfl
      rw [hid]
      refine ⟨?_, ?_, hr1, hr2, hr3⟩
      · intro i hi
        have hi' : i < c.length := by
          simpa using hi
        rw [hw1 i hi']
        simp
      · intro a ha
        refine hw2 a ?_
        simpa using ha
    · have htflat : (t.flatten) ≠ [] := by
        cases t with
        | nil => exact absurd rfl ht
        | cons c2 t2 =>
          have hc2 : c2 ≠ [] := hcne c2 (List.mem_cons_of_mem _ (List.mem_cons_self _ _))
          simp only [List.flatten_cons, ne_eq, List.append_eq_nil]
          rintro ⟨h1, -⟩
          exact hc2 h1
      have htpos : 0 < (t.flatten).length := List.length_pos.mpr htflat
      have hnored : ¬(s.bulk_configured = true ∧ s.bulk_length = c.length) := by
        rintro ⟨-, hx⟩
        rw [hlen, hflat] at hx
        omega
      obtain ⟨hn1, hn2, hn3⟩ := hw5 hnored
      have hbase' : u32sub (InitGfx.bulk_chunk_step s c).bulk_address SISUSB_PCI_MEMBASE =
          u32sub s.bulk_address SISUSB_PCI_MEMBASE + c.length := by
        rw [hn2, u32sub_shift, Nat.mod_eq_of_lt (lt_of_le_of_lt hfitc hVU)]
      obtain ⟨ih1, ih2, ih3, ih4, ih5⟩ := ih (InitGfx.bulk_chunk_step s c) ht
        (fun c2 hc2 => hcne c2 (List.mem_cons_of_mem _ hc2))
        (by rw [hn1, hcfg])
        (by rw [hn2]; exact Nat.mod_lt _ (by norm_num [U32]))
        (by rw [hw3, hlen, hflat]; omega)
        (by rw [hbase']; omega)
      rw [hstream]
      refine ⟨?_, ?_, ih3, ih4, ih5⟩
      · intro i hi
        rw [hflat] at hi
        by_cases hic : i < c.length
        · have hout := ih2 (u32sub s.bulk_address SISUSB_PCI_MEMBASE + i)
            (Or.inl (by rw [hbase']; omega))
          rw [hout, hw1 i hic, List.flatten_cons,
            List.getD_append _ _ _ _ hic]
        · push_neg at hic
          have hin := ih1 (i - c.length) (by omega)
          rw [hbase'] at hin
          rw [show u32sub s.bulk_address SISUSB_PCI_MEMBASE + c.length + (i - c.length) =
              u32sub s.bulk_address SISUSB_PCI_MEMBASE + i from by omega] at hin
          rw [hin, List.flatten_cons, List.getD_append_right _ _ _ _ hic]
      · intro a ha
        rw [hflat] at ha
        have h2' := ih2 a (by rw [hbase']; omega)
        rw [h2', hw2 a (by omega)]

set_option maxRecDepth 16000 in
/-- **C2**: for every target address `X` and data whose range lies within
VRAM, and for every way of splitting the data into consecutive nonempty
chunks: after bridge-register writes configuring the address register
(0x194) with `X`, the length register (0x190) with the total length `N`,
and a commit to the flags register (0x180), streaming exactly those `N`
bytes leaves the VRAM bytes at offsets `X - VRAM_BASE` through
`X - VRAM_BASE + N - 1` equal to the streamed bytes, and BulkState returns
to Idle (configured false, address 0, flags 0). -/

theorem C2_bulk_reassembly_law (s0 : SisState) (X F : ℕ) (chunks : List (List ℕ))
    (hX : X < U32) (hF : F < U32)
    (hne : chunks ≠ []) (hcne : ∀ c ∈ chunks, c ≠ [])
    (hfit : u32sub X SISUSB_PCI_MEMBASE + (chunks.flatten).length ≤ VRAM_SIZE) :
    (∀ i < (chunks.flatten).length,
      (InitGfx.stream_chunks
        (InitGfx.process_packet_bridge
          (InitGfx.process_packet_bridge
            (InitGfx.process_packet_bridge s0 ⟨0x001f, 0x194, X⟩ false).s
            ⟨0x001f, 0x190, (chunks.flatten).length⟩ false).s
          ⟨0x001f, 0x180, F⟩ false).s chunks).vram
        (u32sub X SISUSB_PCI_MEMBASE + i) = (chunks.flatten).getD i 0) ∧
    (InitGfx.stream_chunks
        (InitGfx.process_packet_bridge
          (InitGfx.process_packet_bridge
            (InitGfx.process_packet_bridge s0 ⟨0x001f, 0x194, X⟩ false).s
            ⟨0x001f, 0x190, (chunks.flatten).length⟩ false).s
          ⟨0x001f, 0x180, F⟩ false).s chunks).bulk_configured = false ∧
    (InitGfx.stream_chunks
        (InitGfx.process_packet_bridge
          (InitGfx.process_packet_bridge
            (InitGfx.process_packet_bridge s0 ⟨0x001f, 0x194, X⟩ false).s
            ⟨0x001f, 0x190, (chunks.flatten).length⟩ false).s
          ⟨0x001f, 0x180, F⟩ false).s chunks).bulk_address = 0 ∧
    (InitGfx.stream_chunks
        (InitGfx.process_packet_bridge
          (InitGfx.process_packet_bridge
            (InitGfx.process_packet_bridge s0 ⟨0x001f, 0x194, X⟩ false).s
            ⟨0x001f, 0x190, (chunks.flatten).length⟩ false).s
          ⟨0x001f, 0x180, F⟩ false).s chunks).bulk_flags = 0 := by
  have hVU : VRAM_SIZE < U32 := by norm_num [VRAM_SIZE, U32]
  have hN : (chunks.flatten).length < U32 :=
    lt_of_le_of_lt (le_trans (Nat.le_add_left _ _) hfit) hVU
  have h31 : (0x001f : ℕ) % U16 = 0x001f := by norm_num [U16]
  have h404 : (0x194 : ℕ) % U32 = 0x194 := by norm_num [U32]
  have h400 : (0x190 : ℕ) % U32 = 0x190 := by norm_num [U32]
  have h384 : (0x180 : ℕ) % U32 = 0x180 := by norm_num [U32]
  have e1 : (InitGfx.process_packet_bridge s0 ⟨0x001f, 0x194, X⟩ false).s =
      { s0 with bridge_reg := Function.update s0.bridge_reg 101 X, bulk_address := X } := by
    simp [InitGfx.process_packet_bridge, Nat.mod_eq_of_lt hX, h31, h404, PCI_BRIDGE_REG_SIZE]
  rw [e1]
  have e2 : (InitGfx.process_packet_bridge
      { s0 with bridge_reg := Function.update s0.bridge_reg 101 X, bulk_address := X }
      ⟨0x001f, 0x190, (chunks.flatten).length⟩ false).s =
      { s0 with bridge_reg := Function.update (Function.update s0.bridge_reg 101 X) 100 (chunks.flatten).length, bulk_address := X, bulk_length := (chunks.flatten).length } := by
    simp [InitGfx.process_packet_bridge, Nat.mod_eq_of_lt hN, h31, h400, PCI_BRIDGE_REG_SIZE, -List.length_flatten]
  rw [e2]
  have e3 : (InitGfx.process_packet_bridge
      { s0 with bridge_reg := Function.update (Function.update s0.bridge_reg 101 X) 100 (chunks.flatten).length, bulk_address := X, bulk_length := (chunks.flatten).length }
      ⟨0x001f, 0x180, F⟩ false).s =
      { s0 with bridge_reg := Function.update (Function.update (Function.update s0.bridge_reg 101 X) 100 (chunks.flatten).length) 96 F, bulk_address := X, bulk_length := (chunks.flatten).length, bulk_flags := F, bulk_configured := true } := by
    simp [InitGfx.process_packet_bridge, Nat.mod_eq_of_lt hF, h31, h384, PCI_BRIDGE_REG_SIZE, -List.length_flatten]
  rw [e3]
  obtain ⟨l1, l2, l3, l4, l5⟩ := stream_chunks_law chunks
    { s0 with bridge_reg := Function.update (Function.update (Function.update s0.bridge_reg 101 X) 100 (chunks.flatten).length) 96 F, bulk_address := X, bulk_length := (chunks.flatten).length, bulk_flags := F, bulk_configured := true }
    hne hcne rfl hX rfl hfit
  exact ⟨l1, l3, l4, l5⟩

theorem C2_bulk_reassembly_law_witness :
    (∀ i < (([[1, 2], [3]] : List (List ℕ)).flatten).length,
      (InitGfx.stream_chunks
        (InitGfx.process_packet_bridge
          (InitGfx.process_packet_bridge
            (InitGfx.process_packet_bridge initState ⟨0x001f, 0x194, 0xd0000100⟩ false).s
            ⟨0x001f, 0x190, (([[1, 2], [3]] : List (List ℕ)).flatten).length⟩ false).s
          ⟨0x001f, 0x180, 1⟩ false).s [[1, 2], [3]]).vram
        (u32sub 0xd0000100 SISUSB_PCI_MEMBASE + i)
        = (([[1, 2], [3]] : List (List ℕ)).flatten).getD i 0) ∧
    (InitGfx.stream_chunks
        (InitGfx.process_packet_bridge
          (InitGfx.process_packet_bridge
            (InitGfx.process_packet_bridge initState ⟨0x001f, 0x194, 0xd0000100⟩ false).s
            ⟨0x001f, 0x190, (([[1, 2], [3]] : List (List ℕ)).flatten).length⟩ false).s
          ⟨0x001f, 0x180, 1⟩ false).s [[1, 2], [3]]).bulk_configured = false ∧
    (InitGfx.stream_chunks
        (InitGfx.process_packet_bridge
          (InitGfx.process_packet_bridge
            (InitGfx.process_packet_bridge initState ⟨0x001f, 0x194, 0xd0000100⟩ false).s
            ⟨0x001f, 0x190, (([[1, 2], [3]] : List (List ℕ)).flatten).length⟩ false).s
          ⟨0x001f, 0x180, 1⟩ false).s [[1, 2], [3]]).bulk_address = 0 ∧
    (InitGfx.stream_chunks
        (InitGfx.process_packet_bridge
          (InitGfx.process_packet_bridge
            (InitGfx.process_packet_bridge initState ⟨0x001f, 0x194, 0xd0000100⟩ false).s
            ⟨0x001f, 0x190, (([[1, 2], [3]] : List (List ℕ)).flatten).length⟩ false).s
          ⟨0x001f, 0x180, 1⟩ false).s [[1, 2], [3]]).bulk_flags = 0 :=
  C2_bulk_reassembly_law initState 0xd0000100 1 [[1, 2], [3]]
    (by decide) (by decide) (by decide) (by decide) (by decide)
